import Mathlib

/-!
Verification development for the django-galleryfield repository.

The repository contains two parallel implementations of the gallery field:
the module `gallery` (files `gallery/fields.py`, `gallery/mixins.py`) and the
module `gallery_widget` (file `gallery_widget/fields.py`).  The definitions
below are shallow embeddings of the Python functions of those modules:
decoded JSON payloads become the inductive type `JVal`, database tables
become lists of primary keys (`List Nat`, with `Nodup` expressing primary-key
uniqueness), and functions that may raise become `Except`-valued or return an
explicit result type.
-/

/-- A character of a Python (Unicode) string, classified by the Unicode
properties that drive CPython's `str.isdigit()` and `int()`:
`decimal c d` is a character of category Nd with decimal digit value `d`
(such as `'3'` or ARABIC-INDIC DIGIT THREE), counted by `isdigit` and
accepted by `int()`; `digitOnly c` has Numeric_Type=Digit but no decimal
value (such as SUPERSCRIPT TWO), counted by `isdigit` but rejected by
`int()`; `other c` is any other character.  The classification is carried
as data, mirroring the Unicode character database instead of attempting to
re-derive it from codepoints. -/
inductive PyChar where
  | decimal (c : Char) (d : Fin 10)
  | digitOnly (c : Char)
  | other (c : Char)

/-- A Python string: a list of classified Unicode characters. -/
abbrev PyStr := List PyChar

/-- The codepoint of a classified character. -/
def PyChar.char : PyChar → Char
  | .decimal c _ => c
  | .digitOnly c => c
  | .other c => c

/-- `c.isdigit()` for one character: true exactly for Numeric_Type Decimal
or Digit. -/
def PyChar.isdigit : PyChar → Bool
  | .decimal _ _ => true
  | .digitOnly _ => true
  | .other _ => false

/-- A decoded JSON / Python value, as produced by `json.loads` respectively
passed around by the Django form machinery.  `jnull` doubles as Python's
`None`. -/
inductive JVal where
  | jnull
  | jbool (b : Bool)
  | jint (n : Int)
  | jstr (s : PyStr)
  | jlist (xs : List JVal)
  | jobj (fields : List (PyStr × JVal))

/-- Django's `Field.empty_values` is `[None, "", [], (), {}]`; this predicate
is `value in self.empty_values` for a decoded JSON value. -/
def isEmptyValue : JVal → Bool
  | .jnull => true
  | .jstr s => s.isEmpty
  | .jlist xs => xs.isEmpty
  | .jobj fs => fs.isEmpty
  | _ => false

/-- Python truthiness (`bool(value)`) for a decoded JSON value. -/
def pyTruthy : JVal → Bool
  | .jnull => false
  | .jbool b => b
  | .jint n => n != 0
  | .jstr s => !s.isEmpty
  | .jlist xs => !xs.isEmpty
  | .jobj fs => !fs.isEmpty

/-- `str.isdigit()` for a Python string: non-empty and every character of
Numeric_Type Decimal or Digit. -/
def strIsDigit (s : PyStr) : Bool :=
  !s.isEmpty && s.all PyChar.isdigit

/-- The decimal digit values of a string consisting solely of decimal (Nd)
characters; `none` as soon as some character lacks a decimal value. -/
def pyDecimalDigits : PyStr → Option (List Nat)
  | [] => some []
  | .decimal _ d :: rest => (pyDecimalDigits rest).map (fun ds => d.val :: ds)
  | _ :: _ => none

/-- `int(s)` on a Python string: succeeds exactly on a non-empty string of
decimal (Nd) characters, yielding its base-10 value; `none` models the
`ValueError` raised otherwise — in particular on digit-only characters such
as SUPERSCRIPT TWO.  (Sign and whitespace forms cannot occur at the call
sites modelled here, which all check `str.isdigit()` first.) -/
def pyStrToInt (s : PyStr) : Option Nat :=
  if s.isEmpty then none
  else (pyDecimalDigits s).map (fun ds => ds.foldl (fun a d => a * 10 + d) 0)

/-- `str(_pk).isdigit()` applied to a decoded JSON value: `True` exactly for
non-negative integers (whose `str` form is all ASCII digits) and for
non-empty strings of `isdigit` characters.  `str(True)`, `str(None)`,
`str` of floats, lists and dicts never consist solely of digits. -/
def pkIsDigit : JVal → Bool
  | .jint n => decide (0 ≤ n)
  | .jstr s => strIsDigit s
  | _ => false

/-- `int(pk)` at the source's conversion sites, which only convert values
that already passed `str(pk).isdigit()` — a non-negative `int`, or a string
of `isdigit` characters; `none` models the `ValueError` raised when some
character has no decimal value. -/
def pyIntOfPk : JVal → Option Nat
  | .jint n => some n.toNat
  | .jstr s => pyStrToInt s
  | _ => none

/-- `pk` denotes a non-negative integer image id: `str(pk).isdigit()` holds
and `int(pk)` succeeds (a non-negative `int`, or a non-empty string of
decimal characters). -/
def pkIsId : JVal → Bool
  | .jint n => decide (0 ≤ n)
  | .jstr s => (pyStrToInt s).isSome
  | _ => false

/-- The integer value of an id-denoting `pk` (the sites using it only
reach values on which `int(pk)` succeeded). -/
def pkToNat (pk : JVal) : Nat := (pyIntOfPk pk).getD 0

/-- `list(map(int, converted))`: `none` models an uncaught `ValueError`
escaping from `int()` on some element. -/
def pyIntList : List JVal → Option (List Nat)
  | [] => some []
  | pk :: rest =>
    match pyIntOfPk pk, pyIntList rest with
    | some n, some ns => some (n :: ns)
    | _, _ => none

/-- A `django.core.exceptions.ValidationError` reduced to its error code and
rendered message (the `params` dict only feeds message interpolation). -/
structure ValErr where
  code : String
  message : String
deriving DecidableEq

/-- A failure outcome of the embedded Python code: a raised
`ValidationError` (caught and turned into a form error by the framework)
or an uncaught `ValueError` escaping from `int()`. -/
inductive PyFailure where
  | validation (e : ValErr)
  | valueError

namespace GalleryWidgetFields

/-!  Embedding of `gallery_widget/fields.py`. -/

/-- `GalleryFormField.default_error_messages["invalid"]`. -/
def msg_invalid : String := "The submitted images are invalid."

/-- `GalleryFormField.default_error_messages["required"]`. -/
def msg_required : String := "The submitted file is empty."

/-- `GalleryFormField.to_python`, after `super().to_python` has already
decoded the submitted JSON payload into `converted : JVal`.  `db` is the
set of primary keys of the rows of the configured target image model
(`image_model.objects`); `.filter(pk__in=ints).count()` is the number of
table rows whose pk occurs in `ints`, and `.filter(pk=pk).count()` is
non-zero exactly when `pk`'s integer value is a row of the table.
`list(map(int, converted))` is evaluated before the count comparison and
may raise an uncaught `ValueError` (an `isdigit` element with no decimal
value); the rebuild loop is only reached when it succeeded, so its
`filter(pk=pk)` coercions cannot fail. -/
def to_python (db : List Nat) (converted : JVal) : Except PyFailure JVal :=
  if isEmptyValue converted then .ok converted
  else
    match converted with
    | .jlist xs =>
      if xs.all pkIsDigit then
        -- Make sure all pks exists
        match pyIntList xs with
        | none => .error .valueError
        | some ints =>
          if (db.filter (fun r => decide (r ∈ ints))).length ≠ xs.length then
            .ok (.jlist (xs.filter (fun pk => decide (pkToNat pk ∈ db))))
          else
            .ok (.jlist xs)
      else
        .error (.validation ⟨"invalid", msg_invalid⟩)
    | _ => .error (.validation ⟨"invalid", msg_invalid⟩)

/-- `converted` is a list each of whose elements passes the
`str(_pk).isdigit()` check. -/
def isPkList : JVal → Bool
  | .jlist xs => xs.all pkIsDigit
  | _ => false

/-- Rendered message of `MaxNumberOfImageValidator` (the singular and plural
forms of the `ngettext_lazy` message coincide):
`"Number of images exceeded, only %(limit_value)d allowed"`. -/
def max_number_message (limit : Nat) : String :=
  "Number of images exceeded, only " ++ toString limit ++ " allowed"

/-- `MaxNumberOfImageValidator.__call__` (through Django's `BaseValidator`):
`clean` is `len`, `compare` is `>`; when `compare(clean(value), limit_value)`
holds, a `ValidationError` with code `max_number_of_images` is raised. -/
def MaxNumberOfImageValidator (limit_value : Nat) (value : List JVal) : Option ValErr :=
  if value.length > limit_value then
    some ⟨"max_number_of_images", max_number_message limit_value⟩
  else none

/-- The validator-relevant state of a `GalleryFormField`:
`_max_number_of_images` and the `validators` list, recorded as the
`limit_value`s of the appended `MaxNumberOfImageValidator`s. -/
structure GalleryFormFieldState where
  _max_number_of_images : Option Nat
  validators : List Nat

/-- A freshly constructed `GalleryFormField`: `__init__` assigns
`self._max_number_of_images` directly (not through the property setter), so
no validator is appended there; `forms.JSONField` installs no default
validators. -/
def initGalleryFormField (max_number_of_images : Option Nat) : GalleryFormFieldState :=
  ⟨max_number_of_images, []⟩

/-- The `max_number_of_images` property setter.  A `Nat` argument always
passes the `str(value).isdigit()` `TypeError` check and `int()` conversion;
`if value:` is false for `None` and for `0`, so a validator is appended only
for a non-zero value. -/
def set_max_number_of_images (f : GalleryFormFieldState) (value : Option Nat) :
    GalleryFormFieldState :=
  let f' : GalleryFormFieldState := { f with _max_number_of_images := value }
  match value with
  | some v => if v = 0 then f' else { f' with validators := f'.validators ++ [v] }
  | none => f'

/-- `Field.run_validators`: run every installed validator on the value,
collecting the raised errors (Django re-raises them bundled in a single
`ValidationError`; an empty list means validation passed). -/
def run_validators (f : GalleryFormFieldState) (value : List JVal) : List ValErr :=
  f.validators.filterMap (fun lim => MaxNumberOfImageValidator lim value)

/-- The `required` entry that `gallery_widget.fields.GalleryField.formfield`
hands to the `GalleryFormField` constructor (which stores it as
`self.required`): `defaults = {"required": True, ...}` is updated with the
caller's kwargs, and Django's `Field.formfield` merges
`{"required": not self.blank, ...}` with those kwargs, whose `required`
entry is always present here and therefore wins. -/
def formfield_required (blank : Bool) (kwargs_required : Option Bool) : Bool :=
  let merged : Option Bool := some (kwargs_required.getD true)
  merged.getD (!blank)

end GalleryWidgetFields

/-- The per-instance state seen by `GalleryDescriptor`: `raw` is a stored
JSON id list as loaded from the database column (`none` when the column was
saved as null), `proxy` is a materialized `GalleryImages` wrapper. -/
inductive GVal where
  | raw (v : Option (List Nat))
  | proxy (value : List Nat)

/-- A model instance as far as one `GalleryField` attribute is concerned:
the field's slot in `instance.__dict__` (absent before the value is first
loaded) and the raw value the ORM loads from the database row. -/
structure PyInstance where
  dict : Option GVal
  dbValue : Option (List Nat)

/-- `GalleryDescriptor.__get__`: `DeferredAttribute.__get__` first ensures
`instance.__dict__` holds the field's value (loading it from the database
row when absent); if that value is not a `GalleryImages`, it is wrapped via
`self.field.attr_class(instance, self.field, image_list)` (whose `__init__`
replaces a falsy `field_value` by `[]`) and the wrapper is stored in
`instance.__dict__[self.field.name]`; the dict entry is returned. -/
def descriptor_get (i : PyInstance) : GVal × PyInstance :=
  let image_list := i.dict.getD (.raw i.dbValue)
  let i1 : PyInstance := { i with dict := some image_list }
  match image_list with
  | .proxy v => (.proxy v, i1)
  | .raw v => (.proxy (v.getD []), { i1 with dict := some (.proxy (v.getD [])) })

/-- `GalleryDescriptor.__set__`: store the assigned value in
`instance.__dict__[self.field.attname]` (for a `JSONField`, `attname` equals
`name`). -/
def descriptor_set (i : PyInstance) (value : GVal) : PyInstance :=
  { i with dict := some value }

namespace GalleryFields

/-!  Embedding of `gallery/fields.py` (the older implementation). -/

/-- The `required` entry that `gallery.fields.GalleryField.formfield` hands
to the `GalleryFormField` constructor: `kwargs.update({"required": True})`
overwrites any caller-supplied entry before the kwargs are merged over
Django's `Field.formfield` defaults `{"required": not self.blank, ...}`. -/
def formfield_required (blank : Bool) (_kwargs_required : Option Bool) : Bool :=
  let merged : Option Bool := some true
  merged.getD (!blank)

end GalleryFields

/-- The positional case-ordering expression
`Case(*[When(pk=pk, then=pos) for pos, pk in enumerate(pks)])`: a row is
annotated with the position of its pk in `pks` (SQL `CASE` takes the first
matching `WHEN`; a row matching no `WHEN` gets `NULL`, modelled as the
out-of-range position `pks.length`, which only ever affects rows that are
filtered away by `pk__in=pks`). -/
def caseKey (pks : List Nat) (r : Nat) : Nat := pks.indexOf r

/-- `queryset.order_by('_order')` on the case-annotated queryset: sort the
rows by the annotated key (SQL sorting, modelled by a comparison sort). -/
def order_by (pks : List Nat) (l : List Nat) : List Nat :=
  List.insertionSort (fun a b => caseKey pks a ≤ caseKey pks b) l

namespace GalleryWidgetFields

/-- `GalleryImages.objects`: `model.objects.filter(id__in=self._value)`
annotated with the positional case expression over the stored id sequence
and ordered by it.  `table` is the pk list of the target model's rows in
insertion order. -/
def GalleryImages_objects (table : List Nat) (value : List Nat) : List Nat :=
  order_by value (table.filter (fun r => decide (r ∈ value)))

end GalleryWidgetFields

namespace GalleryMixins

/-!  Embedding of `gallery/mixins.py`. -/

/-- `BaseListViewMixin.get_ordering`: the positional case expression over
the validated request pks. -/
def get_ordering (pks : List Nat) : Nat → Nat := caseKey pks

/-- `BaseListViewMixin.get_queryset`:
`model._default_manager.all().order_by(self.get_ordering()).filter(pk__in=self._pks)`. -/
def get_queryset (table : List Nat) (pks : List Nat) : List Nat :=
  (order_by pks table).filter (fun r => decide (r ∈ pks))

/-- The outcome of fetching `request.GET.get("pks", None)` and decoding it
with `json.loads(unquote(pks))`: the parameter may be absent (or the empty
string, which is equally falsy), may fail to decode as JSON, or decodes to
a JSON value. -/
inductive PksParam where
  | absent
  | malformed (raw : String)
  | parsed (v : JVal)

/-- The `SuspiciousOperation` errors of
`BaseListViewMixin.get_and_validate_pks_from_request`, by message:
"The request doesn't contain pks data", "Invalid format of pks ...", and
"pks should only contain integers, while got ..." (carrying the offending
entry). -/
inductive SuspiciousOperation where
  | missing_pks
  | invalid_format
  | non_digit_pk (pk : JVal)

/-- `BaseListViewMixin.get_and_validate_pks_from_request`: a missing or
falsy parameter raises; a `json.loads` failure and a failing
`assert isinstance(pks, list)` are caught by the same `except` and raise;
then every entry must pass `str(pk).isdigit()`, the first offender being
reported. -/
def get_and_validate_pks_from_request (p : PksParam) :
    Except SuspiciousOperation (List JVal) :=
  match p with
  | .absent => .error .missing_pks
  | .malformed _ => .error .invalid_format
  | .parsed v =>
    match v with
    | .jlist pks =>
      match pks.find? (fun pk => !pkIsDigit pk) with
      | some pk => .error (.non_digit_pk pk)
      | none => .ok pks
    | _ => .error .invalid_format

/-- A row of the target image model as `get_serialized_image` consumes it:
its pk, the storage path and url of its image file, the outcome of reading
`image.size` (`none` when the file is missing from storage and the read
raises `OSError`), and the outcome of `self.get_thumbnail(image).url`
(`none` when thumbnail generation raises any exception). -/
structure ImageObj where
  pk : Nat
  path : String
  url : String
  sizeResult : Option Nat
  thumbnailResult : Option String

/-- `os.path.basename`: the component after the last slash. -/
def basename (path : String) : String :=
  (path.splitOn "/").getLastD ""

/-- The dict built by `BaseImageModelMixin.get_serialized_image`; a key
absent from the dict is `none`. -/
structure SerializedImage where
  pk : Nat
  name : String
  url : String
  size : Option Nat := none
  cropUrl : Option String := none
  thumbnailUrl : Option String := none
  error : Option String := none

/-- `BaseImageModelMixin.get_serialized_image`.  `crop_url_of` models
`reverse(self.crop_url_name, kwargs={"pk": obj.pk})`. -/
def get_serialized_image (crop_url_of : Nat → String) (obj : ImageObj) :
    SerializedImage :=
  let result : SerializedImage :=
    { pk := obj.pk, name := basename obj.path, url := obj.url }
  let result :=
    match obj.sizeResult with
    | none =>
      { result with error := some "The image was unexpectedly deleted from server" }
    | some image_size =>
      { result with size := some image_size, cropUrl := some (crop_url_of obj.pk) }
  match obj.thumbnailResult with
  | some t => { result with thumbnailUrl := some t }
  | none => result

end GalleryMixins

/-- One escaped character of `json.dumps` applied to a string (the
`ensure_ascii` escaping of non-ASCII characters is not modelled). -/
def jsonEscapeChar (c : Char) : String :=
  if c = Char.ofNat 34 then "\\" ++ String.singleton (Char.ofNat 34)
  else if c = Char.ofNat 92 then "\\\\"
  else if c = Char.ofNat 10 then "\\n"
  else if c = Char.ofNat 9 then "\\t"
  else if c = Char.ofNat 13 then "\\r"
  else String.singleton c

/-- Item separator of `json.dumps` (Python's default is `", "`). -/
def dumpsSep (l : List String) : String := String.intercalate ", " l

/-- `json.dumps` of a string value (escaping acts on the codepoints). -/
def dumpsStr (s : PyStr) : String :=
  String.singleton (Char.ofNat 34)
    ++ String.join (s.map (fun pc => jsonEscapeChar pc.char))
    ++ String.singleton (Char.ofNat 34)

mutual

/-- `json.dumps` of a decoded value. -/
def dumps : JVal → String
  | .jnull => "null"
  | .jbool b => cond b "true" "false"
  | .jint n => toString n
  | .jstr s => dumpsStr s
  | .jlist xs => "[" ++ dumpsSep (dumpsList xs) ++ "]"
  | .jobj fs => "\x7b" ++ dumpsSep (dumpsObj fs) ++ "\x7d"

/-- `json.dumps` of the elements of a JSON array. -/
def dumpsList : List JVal → List String
  | [] => []
  | x :: xs => dumps x :: dumpsList xs

/-- `json.dumps` of the entries of a JSON object (Python's default
key separator is `": "`). -/
def dumpsObj : List (PyStr × JVal) → List String
  | [] => []
  | (k, v) :: fs => (dumpsStr k ++ ": " ++ dumps v) :: dumpsObj fs

end

/-- `isinstance(value, (list, tuple))` for a decoded value (a tuple is
represented the same way as a list). -/
def isListVal : JVal → Bool
  | .jlist _ => true
  | _ => false

/-- `value[0]` of a non-empty Python list (only evaluated on such values in
the embedded code). -/
def listHead : JVal → JVal
  | .jlist (x :: _) => x
  | _ => .jnull

/-- The underlying element list of a Python list value. -/
def asList : JVal → List JVal
  | .jlist xs => xs
  | _ => []

namespace GalleryFields

/-- `UnicodeWithAttr`: the compressed value, a JSON string (`json.dumps` of
the files sub-value) carrying the `deleted_files` attribute. -/
structure UnicodeWithAttr where
  files : String
  deleted_files : JVal

/-- Outcome of `GalleryFormField.clean` (gallery/fields.py): a compressed
value, a raised `ValidationError` carrying its collected error list, or an
uncaught `IndexError` escaping from `compress`. -/
inductive CleanResult where
  | ok (value : UnicodeWithAttr)
  | validation_error (errors : List ValErr)
  | index_error

/-- `GalleryFormField.compress` (gallery/fields.py): pad a falsy
`data_list` to `["", ""]`, `json.dumps` the files part and attach the
deletions part as the `deleted_files` attribute.  On a 1-element list,
`data_list[1]` raises `IndexError`. -/
def compress (data_list : List JVal) : CleanResult :=
  let dl := if data_list.isEmpty then [JVal.jstr [], JVal.jstr []] else data_list
  match dl with
  | d0 :: d1 :: _ => .ok ⟨dumps d0, d1⟩
  | _ => .index_error

/-- `errors.extend(m for m in e.error_list if m not in errors)`, iterated:
append each message not already collected. -/
def collect_errors (es : List ValErr) : List ValErr :=
  es.foldl (fun acc m => if acc.contains m then acc else acc ++ [m]) []

/-- The sub-field loop of `GalleryFormField.clean` (gallery/fields.py): the
two sub-fields are `forms.JSONField(required=required)` and
`forms.JSONField(required=False)` (their `clean` is taken as a parameter,
it belongs to the framework); `value[i]` out of range becomes `None`;
errors are collected, skipping duplicates, and re-raised together,
otherwise the cleaned data is compressed.  `MultiValueField.validate` is a
no-op and the field installs no validators, so `self.validate(out)` and
`self.run_validators(out)` add nothing. -/
def clean_sub_fields (required : Bool)
    (fieldClean : Bool → JVal → Except (List ValErr) JVal) (xs : List JVal) :
    CleanResult :=
  match fieldClean required (xs.getD 0 .jnull), fieldClean false (xs.getD 1 .jnull) with
  | .ok c0, .ok c1 => compress [c0, c1]
  | .ok _, .error e1 => .validation_error (collect_errors e1)
  | .error e0, .ok _ => .validation_error (collect_errors e0)
  | .error e0, .error e1 => .validation_error (collect_errors (e0 ++ e1))

/-- `GalleryFormField.clean` (gallery/fields.py).  `self.disabled` is false
for a default field, so the `widget.decompress` branch is not taken;
`self.error_messages["invalid"]` is inherited from `MultiValueField`. -/
def clean (required : Bool)
    (fieldClean : Bool → JVal → Except (List ValErr) JVal) (value : JVal) :
    CleanResult :=
  if !pyTruthy value || isListVal value then
    if !pyTruthy value || isEmptyValue (listHead value) then
      if required then
        .validation_error [⟨"required", "The submitted file is empty."⟩]
      else
        if !pyTruthy value then compress [] else compress (asList value)
    else clean_sub_fields required fieldClean (asList value)
  else .validation_error [⟨"invalid", "Enter a list of values."⟩]

/-- The files sub-value that `compress` receives for an empty or missing
submission (`""` from the `["", ""]` padding for a missing one, `value[0]`
otherwise). -/
def submitted_files : JVal → JVal
  | .jlist (v0 :: _ :: _) => v0
  | _ => .jstr []

/-- The deletions sub-value that `compress` receives for an empty or
missing submission (`""` for a missing one, `value[1]` otherwise). -/
def submitted_deleted : JVal → JVal
  | .jlist (_ :: v1 :: _) => v1
  | _ => .jstr []

end GalleryFields

/-- If the number of table rows whose pk occurs in `ints` equals the length
of `ints`, then (the table having unique pks) every entry of `ints` is a
table row. -/
theorem count_eq_length_imp_mem (db : List Nat) (hdb : db.Nodup) (ints : List Nat)
    (hlen : (db.filter (fun r => decide (r ∈ ints))).length = ints.length) :
    ∀ x ∈ ints, x ∈ db := by
  have hperm : (db.filter (fun r => decide (r ∈ ints))).Perm
      (ints.dedup.filter (fun r => decide (r ∈ db))) := by
    refine (List.perm_ext_iff_of_nodup (hdb.filter _) ((List.nodup_dedup ints).filter _)).2 ?_
    intro a
    simp only [List.mem_filter, decide_eq_true_eq, List.mem_dedup]
    tauto
  have hlen2 : (ints.dedup.filter (fun r => decide (r ∈ db))).length = ints.length := by
    rw [← hperm.length_eq]; exact hlen
  have hsub1 : (ints.dedup.filter (fun r => decide (r ∈ db))).Sublist ints :=
    (List.filter_sublist _).trans (List.dedup_sublist ints)
  have heq : ints.dedup.filter (fun r => decide (r ∈ db)) = ints :=
    hsub1.eq_of_length hlen2
  intro x hx
  have hx2 : x ∈ ints.dedup.filter (fun r => decide (r ∈ db)) := by rw [heq]; exact hx
  simpa using (List.mem_filter.1 hx2).2

/-- A string on which `int()` succeeds consists of `isdigit`
characters. -/
theorem pyDecimalDigits_all_digit (s : PyStr)
    (h : (pyDecimalDigits s).isSome) : s.all PyChar.isdigit = true := by
  induction s with
  | nil => rfl
  | cons c rest ih =>
    cases c with
    | decimal c d =>
      cases hr : pyDecimalDigits rest with
      | none => simp [pyDecimalDigits, hr] at h
      | some ds =>
        simp [List.all_cons, PyChar.isdigit, ih (by simp [hr])]
    | digitOnly c => simp [pyDecimalDigits] at h
    | other c => simp [pyDecimalDigits] at h

/-- An id-denoting value passes the `str(pk).isdigit()` gate. -/
theorem pkIsId_imp_pkIsDigit (pk : JVal) (h : pkIsId pk = true) :
    pkIsDigit pk = true := by
  cases pk with
  | jint n => simpa [pkIsId, pkIsDigit] using h
  | jstr s =>
    simp only [pkIsId] at h
    rw [pyStrToInt] at h
    by_cases he : s.isEmpty
    · simp [he] at h
    · cases hd : pyDecimalDigits s with
      | none => simp [he, hd] at h
      | some ds =>
        simp [pkIsDigit, strIsDigit, he, pyDecimalDigits_all_digit s (by simp [hd])]
  | jnull => simp [pkIsId] at h
  | jbool b => simp [pkIsId] at h
  | jlist xs => simp [pkIsId] at h
  | jobj fs => simp [pkIsId] at h

/-- On a list of id-denoting values, `list(map(int, converted))` succeeds
and yields the ids' integer values. -/
theorem all_pkIsId_intList (xs : List JVal) (h : xs.all pkIsId = true) :
    pyIntList xs = some (xs.map pkToNat) := by
  induction xs with
  | nil => rfl
  | cons pk rest ih =>
    simp only [List.all_cons, Bool.and_eq_true] at h
    obtain ⟨hpk, hrest⟩ := h
    have hsome : pyIntOfPk pk = some (pkToNat pk) := by
      cases pk with
      | jint n => rfl
      | jstr s =>
        simp only [pkIsId, Option.isSome_iff_exists] at hpk
        obtain ⟨v, hv⟩ := hpk
        simp [pyIntOfPk, pkToNat, hv]
      | jnull => simp [pkIsId] at hpk
      | jbool b => simp [pkIsId] at hpk
      | jlist l => simp [pkIsId] at hpk
      | jobj fs => simp [pkIsId] at hpk
    simp [pyIntList, hsome, ih hrest]

/-- Characterization of `GalleryFormField.to_python` on a list of
id-denoting values: the `int()` conversions succeed and the result is the
input with the ids that do not resolve to a table row filtered out (which
is the input itself when the pk-count check succeeds). -/
theorem to_python_jlist_eq_filter (db : List Nat) (hdb : db.Nodup)
    (xs : List JVal) (hd : xs.all pkIsId = true) :
    GalleryWidgetFields.to_python db (.jlist xs)
      = .ok (.jlist (xs.filter (fun pk => decide (pkToNat pk ∈ db)))) := by
  by_cases hemp : xs = []
  · subst hemp; rfl
  · have h1 : isEmptyValue (JVal.jlist xs) = false := by
      cases xs with
      | nil => exact absurd rfl hemp
      | cons a t => rfl
    have hdig : xs.all pkIsDigit = true := by
      rw [List.all_eq_true] at hd ⊢
      exact fun x hx => pkIsId_imp_pkIsDigit x (hd x hx)
    have hconv : pyIntList xs = some (xs.map pkToNat) := all_pkIsId_intList xs hd
    unfold GalleryWidgetFields.to_python
    rw [h1]
    simp only [Bool.false_eq_true, if_false, hdig, if_true, hconv]
    by_cases hcount :
        (db.filter (fun r => decide (r ∈ xs.map pkToNat))).length = xs.length
    · rw [if_neg (not_not_intro hcount)]
      have hall : ∀ x ∈ xs.map pkToNat, x ∈ db := by
        apply count_eq_length_imp_mem db hdb
        rw [List.length_map]; exact hcount
      have hfilter : xs.filter (fun pk => decide (pkToNat pk ∈ db)) = xs := by
        refine List.filter_eq_self.2 ?_
        intro a ha
        exact decide_eq_true (hall (pkToNat a) (List.mem_map_of_mem pkToNat ha))
      rw [hfilter]
    · rw [if_pos hcount]

/-- C1: for every submitted value that decodes to a list of image ids, the
cleaning step `GalleryFormField.to_python` (gallery_widget/fields.py) does
not raise; each id that does not resolve to an existing row of the target
model is dropped, the returned list contains only resolvable ids taken from
the input, and its length is at most the input list's length. -/
theorem to_python_drops_unresolved (db : List Nat) (hdb : db.Nodup)
    (xs : List JVal) (hd : xs.all pkIsId = true) :
    ∃ ys : List JVal,
      GalleryWidgetFields.to_python db (.jlist xs) = .ok (.jlist ys) ∧
      (∀ pk ∈ ys, pk ∈ xs ∧ pkToNat pk ∈ db) ∧
      ys.length ≤ xs.length := by
  refine ⟨xs.filter (fun pk => decide (pkToNat pk ∈ db)),
    to_python_jlist_eq_filter db hdb xs hd, ?_, List.length_filter_le _ _⟩
  intro pk hpk
  have h1 := List.mem_filter.1 hpk
  exact ⟨h1.1, of_decide_eq_true h1.2⟩

/-- Witness for C1 at a concrete input: table `{1, 2}`, submission
`[1, 5, 2]`; the unresolvable id 5 is dropped. -/
theorem to_python_drops_unresolved_witness :
    ([1, 2] : List Nat).Nodup ∧
    ([JVal.jint 1, JVal.jint 5, JVal.jint 2].all pkIsId = true) ∧
    (∃ ys : List JVal,
      GalleryWidgetFields.to_python [1, 2]
          (.jlist [.jint 1, .jint 5, .jint 2]) = .ok (.jlist ys) ∧
      (∀ pk ∈ ys, pk ∈ [JVal.jint 1, JVal.jint 5, JVal.jint 2] ∧ pkToNat pk ∈ [1, 2]) ∧
      ys.length ≤ 3) :=
  ⟨by decide, by decide,
    to_python_drops_unresolved [1, 2] (by decide)
      [JVal.jint 1, JVal.jint 5, JVal.jint 2] (by decide)⟩

/-- C10: when every submitted id resolves to an existing row of the target
model, `GalleryFormField.to_python` (gallery_widget/fields.py) returns the
list unchanged — same elements, same relative order, duplicates
preserved. -/
theorem to_python_identity_on_resolvable (db : List Nat) (hdb : db.Nodup)
    (xs : List JVal) (hd : xs.all pkIsId = true)
    (hres : ∀ pk ∈ xs, pkToNat pk ∈ db) :
    GalleryWidgetFields.to_python db (.jlist xs) = .ok (.jlist xs) := by
  have h := to_python_jlist_eq_filter db hdb xs hd
  have hfilter : xs.filter (fun pk => decide (pkToNat pk ∈ db)) = xs :=
    List.filter_eq_self.2 fun a ha => decide_eq_true (hres a ha)
  rw [h, hfilter]

/-- Witness for C10 at a concrete input with a duplicate id: table `{1, 2}`,
submission `[1, 1, 2]` is returned unchanged. -/
theorem to_python_identity_on_resolvable_witness :
    ([1, 2] : List Nat).Nodup ∧
    ([JVal.jint 1, JVal.jint 1, JVal.jint 2].all pkIsId = true) ∧
    (∀ pk ∈ [JVal.jint 1, JVal.jint 1, JVal.jint 2], pkToNat pk ∈ [1, 2]) ∧
    GalleryWidgetFields.to_python [1, 2] (.jlist [.jint 1, .jint 1, .jint 2])
      = .ok (.jlist [.jint 1, .jint 1, .jint 2]) :=
  ⟨by decide, by decide, by decide,
    to_python_identity_on_resolvable [1, 2] (by decide)
      [JVal.jint 1, JVal.jint 1, JVal.jint 2] (by decide) (by decide)⟩

/-- C5 counterexample: the claim fails on a digit-only Unicode character.
The payload `["²"]` (SUPERSCRIPT TWO, U+00B2) is a non-empty list with an
element that is not a non-negative integer id, yet `to_python` does not
raise the claimed `invalid` `ValidationError`: `str('²').isdigit()` is
true, so the check loop passes, and `int('²')` in
`list(map(int, converted))` then raises an uncaught `ValueError`. -/
theorem to_python_superscript_counterexample :
    GalleryWidgetFields.to_python []
      (.jlist [.jstr [PyChar.digitOnly (Char.ofNat 178)]])
      = .error .valueError := rfl

/-- C5 (amended): for every non-empty submitted value whose decoded
payload is not a list at all, or is a list containing an element failing
`str(pk).isdigit()`, `GalleryFormField.to_python`
(gallery_widget/fields.py) raises `ValidationError` with code `invalid`
and message "The submitted images are invalid."; a list whose elements all
pass `isdigit` but among which some `int()` conversion fails (a digit-only
character with no decimal value) instead raises an uncaught
`ValueError`. -/
theorem to_python_invalid_or_value_error (db : List Nat) (v : JVal)
    (h1 : isEmptyValue v = false) :
    (GalleryWidgetFields.isPkList v = false →
      GalleryWidgetFields.to_python db v
        = .error (.validation ⟨"invalid", GalleryWidgetFields.msg_invalid⟩)) ∧
    (∀ xs, v = .jlist xs → xs.all pkIsDigit = true → pyIntList xs = none →
      GalleryWidgetFields.to_python db v = .error .valueError) := by
  constructor
  · intro h2
    unfold GalleryWidgetFields.to_python
    cases v with
    | jlist xs =>
      simp only [GalleryWidgetFields.isPkList] at h2
      simp [h1, h2]
    | jnull => simp [isEmptyValue] at h1
    | jbool b => rfl
    | jint n => rfl
    | jstr s => simp [h1]
    | jobj fs => simp [h1]
  · rintro xs rfl hdig hnone
    unfold GalleryWidgetFields.to_python
    rw [h1]
    simp only [Bool.false_eq_true, if_false, hdig, if_true, hnone]

/-- Witness for the amended C5 at concrete inputs: the non-list payload
`5` draws the `invalid` `ValidationError`, and the all-`isdigit` list
`[2, "²"]` with a failing `int()` draws the uncaught `ValueError`. -/
theorem to_python_invalid_or_value_error_witness :
    isEmptyValue (JVal.jint 5) = false ∧
    GalleryWidgetFields.to_python [] (.jint 5)
      = .error (.validation ⟨"invalid", GalleryWidgetFields.msg_invalid⟩) ∧
    GalleryWidgetFields.to_python []
        (.jlist [.jint 2, .jstr [PyChar.digitOnly (Char.ofNat 178)]])
      = .error .valueError :=
  ⟨rfl,
   (to_python_invalid_or_value_error [] (.jint 5) rfl).1 rfl,
   (to_python_invalid_or_value_error []
      (.jlist [.jint 2, .jstr [PyChar.digitOnly (Char.ofNat 178)]]) rfl).2
     [.jint 2, .jstr [PyChar.digitOnly (Char.ofNat 178)]] rfl (by decide) rfl⟩

/-- C4 counterexample: the claim fails at `max_number_of_images = 0`.  The
setter's `if value:` is false for 0, so no `MaxNumberOfImageValidator` is
installed and a 1-element submission — whose length exceeds 0 — passes
validation instead of failing with the exceeded-count error. -/
theorem max_number_zero_counterexample :
    GalleryWidgetFields.run_validators
      (GalleryWidgetFields.set_max_number_of_images
        (GalleryWidgetFields.initGalleryFormField none) (some 0))
      [JVal.jnull] = [] := rfl

/-- C4 (amended): for every `GalleryFormField` configured through the
`max_number_of_images` setter with a positive `n`, a submitted list longer
than `n` fails validation with code `max_number_of_images` and message
"Number of images exceeded, only n allowed", and a list of length at most
`n` passes that validator.  (For `n = 0` the setter installs no
validator.) -/
theorem max_number_validator_enforced (n : Nat) (hn : 1 ≤ n) (value : List JVal) :
    (value.length > n →
      GalleryWidgetFields.run_validators
        (GalleryWidgetFields.set_max_number_of_images
          (GalleryWidgetFields.initGalleryFormField none) (some n)) value
        = [⟨"max_number_of_images", GalleryWidgetFields.max_number_message n⟩]) ∧
    (value.length ≤ n →
      GalleryWidgetFields.run_validators
        (GalleryWidgetFields.set_max_number_of_images
          (GalleryWidgetFields.initGalleryFormField none) (some n)) value = []) := by
  have hne : ¬(n = 0) := by omega
  constructor
  · intro hgt
    simp [GalleryWidgetFields.run_validators, GalleryWidgetFields.set_max_number_of_images,
      GalleryWidgetFields.initGalleryFormField, GalleryWidgetFields.MaxNumberOfImageValidator,
      hne, hgt]
  · intro hle
    simp [GalleryWidgetFields.run_validators, GalleryWidgetFields.set_max_number_of_images,
      GalleryWidgetFields.initGalleryFormField, GalleryWidgetFields.MaxNumberOfImageValidator,
      hne, Nat.not_lt.2 hle]

/-- Witness for the amended C4 at a concrete input: limit 1, a 2-element
submission fails with the exceeded-count error. -/
theorem max_number_validator_enforced_witness :
    GalleryWidgetFields.run_validators
      (GalleryWidgetFields.set_max_number_of_images
        (GalleryWidgetFields.initGalleryFormField none) (some 1))
      [JVal.jnull, JVal.jnull]
      = [⟨"max_number_of_images", GalleryWidgetFields.max_number_message 1⟩] :=
  (max_number_validator_enforced 1 (by decide) [JVal.jnull, JVal.jnull]).1 (by decide)

/-- C6: reading a `GalleryField` attribute always yields the proxy type
(`GalleryImages`), never the raw stored value; the proxy is created on
first access and cached in the instance's attribute dictionary, a repeated
read returns the same cached proxy with no further state change, and
assignment replaces the attribute-dictionary entry with the assigned
value. -/
theorem descriptor_lazy_proxy (i : PyInstance) :
    (∃ v, (descriptor_get i).1 = GVal.proxy v) ∧
    ((descriptor_get i).2.dict = some (descriptor_get i).1) ∧
    (descriptor_get ((descriptor_get i).2) = ((descriptor_get i).1, (descriptor_get i).2)) ∧
    (∀ g, (descriptor_set i g).dict = some g) := by
  obtain ⟨d, db⟩ := i
  cases d with
  | none => exact ⟨⟨_, rfl⟩, rfl, rfl, fun g => rfl⟩
  | some g =>
    cases g with
    | raw v => exact ⟨⟨_, rfl⟩, rfl, rfl, fun g => rfl⟩
    | proxy v => exact ⟨⟨_, rfl⟩, rfl, rfl, fun g => rfl⟩

/-- C7: when the caller supplies no explicit `required` argument,
`formfield()` of both `GalleryField` implementations produces a form field
with `required = True`, whatever the model field's `blank` flag. -/
theorem formfield_required_by_default (blank : Bool) :
    GalleryWidgetFields.formfield_required blank none = true ∧
    GalleryFields.formfield_required blank none = true :=
  ⟨rfl, rfl⟩

/-- Along a duplicate-free list, `indexOf` positions are strictly
increasing. -/
theorem nodup_pairwise_indexOf (l : List Nat) (h : l.Nodup) :
    l.Pairwise (fun a b => l.indexOf a < l.indexOf b) := by
  induction l with
  | nil => exact List.Pairwise.nil
  | cons x t ih =>
    have hx : x ∉ t := (List.nodup_cons.1 h).1
    have ht : t.Nodup := (List.nodup_cons.1 h).2
    refine List.Pairwise.cons ?_ ?_
    · intro b hb
      have hbx : x ≠ b := fun e => hx (e ▸ hb)
      rw [List.indexOf_cons_self, List.indexOf_cons_ne _ hbx]
      exact Nat.succ_pos _
    · refine List.Pairwise.imp_of_mem ?_ (ih ht)
      intro a b ha hb hlt
      have hax : x ≠ a := fun e => hx (e ▸ ha)
      have hbx : x ≠ b := fun e => hx (e ▸ hb)
      rw [List.indexOf_cons_ne _ hax, List.indexOf_cons_ne _ hbx]
      omega

/-- Core ordering fact: any list that is a permutation of the
pks-filtered table and is non-decreasing in the positional case key equals
the pk sequence restricted to the rows present in the table. -/
theorem order_by_case_core (table pks : List Nat) (ht : table.Nodup) (hp : pks.Nodup)
    (l : List Nat) (hperm : l.Perm (table.filter (fun r => decide (r ∈ pks))))
    (hsort : l.Pairwise (fun a b => caseKey pks a ≤ caseKey pks b)) :
    l = pks.filter (fun r => decide (r ∈ table)) := by
  have hfn : (table.filter (fun r => decide (r ∈ pks))).Nodup := ht.filter _
  have htn : (pks.filter (fun r => decide (r ∈ table))).Nodup := hp.filter _
  have hln : l.Nodup := hperm.nodup_iff.2 hfn
  have hperm2 : l.Perm (pks.filter (fun r => decide (r ∈ table))) := by
    refine hperm.trans ?_
    refine (List.perm_ext_iff_of_nodup hfn htn).2 ?_
    intro a
    simp only [List.mem_filter, decide_eq_true_eq]
    tauto
  have hmem_pks : ∀ a ∈ l, a ∈ pks := by
    intro a ha
    exact (List.mem_filter.1 (hperm2.mem_iff.1 ha)).1
  have hlt_l : l.Pairwise (fun a b => caseKey pks a < caseKey pks b) := by
    refine List.Pairwise.imp_of_mem ?_ (hsort.and hln)
    intro a b ha hb hab
    refine Nat.lt_of_le_of_ne hab.1 ?_
    intro he
    exact hab.2 ((List.indexOf_inj (hmem_pks a ha) (hmem_pks b hb)).1 he)
  have hlt_t : (pks.filter (fun r => decide (r ∈ table))).Pairwise
      (fun a b => caseKey pks a < caseKey pks b) :=
    (nodup_pairwise_indexOf pks hp).sublist (List.filter_sublist _)
  haveI : IsAntisymm Nat (fun a b => caseKey pks a < caseKey pks b) :=
    ⟨fun a b h1 h2 => absurd (Nat.lt_trans h1 h2) (Nat.lt_irrefl _)⟩
  exact List.eq_of_perm_of_sorted hperm2 hlt_l hlt_t

/-- `order_by` sorts by the case key (the key relation is total and
transitive). -/
theorem order_by_pairwise (pks : List Nat) (l : List Nat) :
    (order_by pks l).Pairwise (fun a b => caseKey pks a ≤ caseKey pks b) := by
  haveI : IsTotal Nat (fun a b => caseKey pks a ≤ caseKey pks b) :=
    ⟨fun a b => Nat.le_total _ _⟩
  haveI : IsTrans Nat (fun a b => caseKey pks a ≤ caseKey pks b) :=
    ⟨fun a b c => Nat.le_trans⟩
  exact List.sorted_insertionSort _ l

/-- C2: for every pk list and every insertion order of the (pk-unique)
target table, both `BaseListViewMixin.get_queryset` — ordered by
`get_ordering`'s positional case expression — and `GalleryImages.objects`
return the matching rows in exactly the order of the given pk sequence. -/
theorem listing_preserves_pk_order (table pks : List Nat)
    (ht : table.Nodup) (hp : pks.Nodup) :
    GalleryMixins.get_queryset table pks
      = pks.filter (fun r => decide (r ∈ table)) ∧
    GalleryWidgetFields.GalleryImages_objects table pks
      = pks.filter (fun r => decide (r ∈ table)) := by
  constructor
  · refine order_by_case_core table pks ht hp _ ?_ ?_
    · exact (List.perm_insertionSort _ table).filter _
    · exact (order_by_pairwise pks table).sublist (List.filter_sublist _)
  · refine order_by_case_core table pks ht hp _ ?_ ?_
    · exact List.perm_insertionSort _ _
    · exact order_by_pairwise pks _

/-- Witness for C2 at a concrete input: `pks = [3, 1, 2]` against two
different insertion orders of the same three rows; the response order is
the pk order. -/
theorem listing_preserves_pk_order_witness :
    ([1, 2, 3] : List Nat).Nodup ∧ ([3, 1, 2] : List Nat).Nodup ∧
    ([2, 3, 1] : List Nat).Nodup ∧
    GalleryMixins.get_queryset [1, 2, 3] [3, 1, 2] = [3, 1, 2] ∧
    GalleryWidgetFields.GalleryImages_objects [2, 3, 1] [3, 1, 2] = [3, 1, 2] :=
  ⟨by decide, by decide, by decide,
    (listing_preserves_pk_order [1, 2, 3] [3, 1, 2] (by decide) (by decide)).1,
    (listing_preserves_pk_order [2, 3, 1] [3, 1, 2] (by decide) (by decide)).2⟩

/-- C8 counterexample: the claim fails on negative integers.  `[-1]` is a
well-formed URL-encoded JSON list of integers, yet
`get_and_validate_pks_from_request` raises `SuspiciousOperation` because
`str(-1).isdigit()` is false. -/
theorem pks_negative_int_counterexample :
    GalleryMixins.get_and_validate_pks_from_request
      (.parsed (.jlist [.jint (-1)]))
      = .error (.non_digit_pk (.jint (-1))) := rfl

/-- C8 (amended): a missing `pks` parameter, an undecodable one, a decoded
non-list payload, and a decoded list containing an entry that does not
denote a non-negative integer id all raise `SuspiciousOperation`; a decoded
JSON list whose entries all denote non-negative integers is accepted and
becomes the pk list used for the query. -/
theorem pks_request_validation (p : GalleryMixins.PksParam) :
    (p = .absent →
      GalleryMixins.get_and_validate_pks_from_request p
        = .error .missing_pks) ∧
    (∀ s, p = .malformed s →
      GalleryMixins.get_and_validate_pks_from_request p
        = .error .invalid_format) ∧
    (∀ v, p = .parsed v → GalleryWidgetFields.isPkList v = false →
      ∃ e, GalleryMixins.get_and_validate_pks_from_request p = .error e) ∧
    (∀ xs, p = .parsed (.jlist xs) → xs.all pkIsDigit = true →
      GalleryMixins.get_and_validate_pks_from_request p = .ok xs) := by
  refine ⟨?_, ?_, ?_, ?_⟩
  · rintro rfl; rfl
  · rintro s rfl; rfl
  · rintro v rfl hv
    cases v with
    | jlist xs =>
      simp only [GalleryWidgetFields.isPkList] at hv
      cases hfs : xs.find? (fun pk => !pkIsDigit pk) with
      | some pk =>
        exact ⟨.non_digit_pk pk, by
          simp [GalleryMixins.get_and_validate_pks_from_request, hfs]⟩
      | none =>
        exfalso
        have hall : ∀ x ∈ xs, pkIsDigit x = true := by
          intro x hx
          simpa using List.find?_eq_none.1 hfs x hx
        exact absurd (List.all_eq_true.2 hall) (by simp [hv])
    | jnull => exact ⟨.invalid_format, rfl⟩
    | jbool b => exact ⟨.invalid_format, rfl⟩
    | jint n => exact ⟨.invalid_format, rfl⟩
    | jstr s => exact ⟨.invalid_format, rfl⟩
    | jobj fs => exact ⟨.invalid_format, rfl⟩
  · rintro xs rfl hxs
    have hf : xs.find? (fun pk => !pkIsDigit pk) = none := by
      rw [List.find?_eq_none]
      intro x hx
      simp [List.all_eq_true.1 hxs x hx]
    simp [GalleryMixins.get_and_validate_pks_from_request, hf]

/-- Witness for the amended C8 at a concrete input: the decoded list
`[3, 1, 2]` is accepted and becomes the pk list. -/
theorem pks_request_validation_witness :
    GalleryMixins.get_and_validate_pks_from_request
      (.parsed (.jlist [.jint 3, .jint 1, .jint 2]))
      = .ok [.jint 3, .jint 1, .jint 2] :=
  (pks_request_validation (.parsed (.jlist [.jint 3, .jint 1, .jint 2]))).2.2.2
    [.jint 3, .jint 1, .jint 2] rfl (by decide)

/-- C9: `get_serialized_image` never lets an exception propagate (it is a
total function); `pk`, `name` and `url` are always present; when reading
the image size raises `OSError` the result carries the error message and
omits `size` and `cropUrl`, otherwise it carries both; when thumbnail
generation raises, `thumbnailUrl` is omitted, otherwise it is present. -/
theorem serialized_image_degrades_gracefully (crop_url_of : Nat → String)
    (obj : GalleryMixins.ImageObj) :
    (GalleryMixins.get_serialized_image crop_url_of obj).pk = obj.pk ∧
    (GalleryMixins.get_serialized_image crop_url_of obj).name
      = GalleryMixins.basename obj.path ∧
    (GalleryMixins.get_serialized_image crop_url_of obj).url = obj.url ∧
    (GalleryMixins.get_serialized_image crop_url_of obj).size = obj.sizeResult ∧
    (GalleryMixins.get_serialized_image crop_url_of obj).cropUrl
      = obj.sizeResult.map (fun _ => crop_url_of obj.pk) ∧
    (GalleryMixins.get_serialized_image crop_url_of obj).error
      = (match obj.sizeResult with
         | none => some "The image was unexpectedly deleted from server"
         | some _ => none) ∧
    (GalleryMixins.get_serialized_image crop_url_of obj).thumbnailUrl
      = obj.thumbnailResult := by
  obtain ⟨pk, path, url, sz, th⟩ := obj
  cases sz <;> cases th <;>
    exact ⟨rfl, rfl, rfl, rfl, rfl, rfl, rfl⟩

/-- C3: for an empty or missing submission — `None`, `[]`, or a two-part
widget value whose files part is empty — `GalleryFormField.clean`
(gallery/fields.py) raises the `required` `ValidationError`
("The submitted file is empty.") when the field is required; when it is not
required it returns the compress of the empty/partial input: `json.dumps`
of the files sub-value as the string, with the deletions sub-value attached
as the `deleted_files` attribute. -/
theorem gallery_clean_empty_submission
    (fieldClean : Bool → JVal → Except (List ValErr) JVal) (value : JVal)
    (h : value = .jnull ∨ value = .jlist [] ∨
      ∃ v0 v1, value = .jlist [v0, v1] ∧ isEmptyValue v0 = true) :
    GalleryFields.clean true fieldClean value
      = .validation_error [⟨"required", "The submitted file is empty."⟩] ∧
    GalleryFields.clean false fieldClean value
      = .ok ⟨dumps (GalleryFields.submitted_files value),
             GalleryFields.submitted_deleted value⟩ := by
  rcases h with rfl | rfl | ⟨v0, v1, rfl, hv0⟩
  · exact ⟨rfl, rfl⟩
  · exact ⟨rfl, rfl⟩
  · constructor
    · simp [GalleryFields.clean, pyTruthy, isListVal, listHead, hv0]
    · simp [GalleryFields.clean, pyTruthy, isListVal, listHead, hv0,
        GalleryFields.compress, asList, GalleryFields.submitted_files,
        GalleryFields.submitted_deleted]

/-- Witness for C3 at a concrete input: a two-part submission with an
empty files part and a non-empty deletions part. -/
theorem gallery_clean_empty_submission_witness :
    GalleryFields.clean true (fun _ _ => .ok .jnull)
        (.jlist [.jstr [], .jint 7])
      = .validation_error [⟨"required", "The submitted file is empty."⟩] ∧
    GalleryFields.clean false (fun _ _ => .ok .jnull)
        (.jlist [.jstr [], .jint 7])
      = .ok ⟨dumps (.jstr []), .jint 7⟩ :=
  ⟨(gallery_clean_empty_submission (fun _ _ => .ok .jnull)
      (.jlist [.jstr [], .jint 7])
      (Or.inr (Or.inr ⟨.jstr [], .jint 7, rfl, rfl⟩))).1,
   (gallery_clean_empty_submission (fun _ _ => .ok .jnull)
      (.jlist [.jstr [], .jint 7])
      (Or.inr (Or.inr ⟨.jstr [], .jint 7, rfl, rfl⟩))).2⟩
